import Mathlib

/-!
Shallow embedding of the `LendingProtocol` Solidity contract
(src/ignition/modules/LendingModule.ts) together with the ERC-20 token
operations it calls (the tokens are the OpenZeppelin `ERC20` used by
`CollateralToken` / `LoanToken`).

Amounts and timestamps are Solidity `uint256` values.  Solidity 0.8
arithmetic is checked (it reverts on overflow and underflow), so on the
inputs where no overflow occurs it coincides with arithmetic on `Nat`;
we embed the values as `Nat` and keep every subtraction guarded exactly
as the source guards it.  Division is Solidity integer division, which
is `Nat` floor division.
-/

namespace DefiLoan

/-- An EVM account address. -/
abbrev Addr := Nat

/-- Failure kinds of the system: the five `require` messages of
`LendingProtocol` plus the two ERC-20 transfer failures
(`ERC20InsufficientBalance`, `ERC20InsufficientAllowance`). -/
inductive LendingError where
  | InsufficientBalance
  | InsufficientAllowance
  | InsufficientCollateral
  | InsufficientLiquidity
  | NoDebtToRepay
  | OutstandingDebt
  | NoCollateral
deriving Repr, DecidableEq

/-- Pointwise update of a balance map. -/
def mapSet (f : Addr → Nat) (k : Addr) (v : Nat) : Addr → Nat :=
  fun a => if a = k then v else f a

/-- State of one ERC-20 token: balances and allowances
(`allowance owner spender`). -/
structure Token where
  balanceOf : Addr → Nat
  allowance : Addr → Addr → Nat

/-- ERC-20 `transfer`/`_update` of OpenZeppelin ERC20: reverts when the
source balance is below `amount`, otherwise debits the source and credits
the destination (a self-transfer leaves the balance unchanged). -/
def Token.transfer (t : Token) (source dest : Addr) (amount : Nat) :
    Except LendingError Token :=
  if t.balanceOf source < amount then .error .InsufficientBalance
  else
    let b1 := mapSet t.balanceOf source (t.balanceOf source - amount)
    let b2 := mapSet b1 dest (b1 dest + amount)
    .ok { t with balanceOf := b2 }

/-- ERC-20 `transferFrom` called by `spender`: spends the allowance first
(reverting when it is below `amount`), then performs the transfer. -/
def Token.transferFrom (t : Token) (spender source dest : Addr) (amount : Nat) :
    Except LendingError Token :=
  if t.allowance source spender < amount then .error .InsufficientAllowance
  else
    Token.transfer
      { t with
        allowance := fun o s =>
          if o = source ∧ s = spender then t.allowance o s - amount
          else t.allowance o s }
      source dest amount

/-- The `UserPosition` struct of `LendingProtocol`. -/
structure UserPosition where
  collateral : Nat
  debt : Nat
  lastUpdated : Nat
deriving Repr, DecidableEq

/-- Pointwise update of the positions mapping. -/
def setPosition (f : Addr → UserPosition) (k : Addr) (v : UserPosition) :
    Addr → UserPosition :=
  fun a => if a = k then v else f a

/-- Constant `INTEREST_RATE = 5` (5 percent per week). -/
def INTEREST_RATE : Nat := 5

/-- Constant `COLLATERAL_RATIO = 150` (150 percent). -/
def COLLATERAL_RATIO : Nat := 150

/-- Constant `PRICE_RATIO = 1` (1:1 valuation). -/
def PRICE_RATIO : Nat := 1

/-- Solidity literal `1 weeks` in seconds. -/
def oneWeek : Nat := 7 * 24 * 60 * 60

/-- Whole state of a deployed `LendingProtocol`: its own address
(`address(this)`), the two token contracts, and the `positions` mapping
(a Solidity mapping defaults to the all-zero struct). -/
structure LendingState where
  self : Addr
  collateralToken : Token
  loanToken : Token
  positions : Addr → UserPosition

/-- Function `calculateInterest(user)` evaluated at `block.timestamp = now`:
zero when the debt is zero, otherwise
`debt * INTEREST_RATE * ((now - lastUpdated) / 1 weeks) / 100`. -/
def calculateInterest (s : LendingState) (user : Addr) (now : Nat) : Nat :=
  if (s.positions user).debt = 0 then 0
  else
    let timeElapsed := now - (s.positions user).lastUpdated
    let weeksElapsed := timeElapsed / oneWeek
    (s.positions user).debt * INTEREST_RATE * weeksElapsed / 100

/-- Observable events of the contract. -/
inductive Event where
  | Deposited (user : Addr) (amount : Nat)
  | Borrowed (user : Addr) (amount : Nat)
  | Repaid (user : Addr) (amount : Nat)
  | Withdrawn (user : Addr) (amount : Nat)
deriving Repr, DecidableEq

/-- Function `depositCollateral(amount)` called by `sender` at time `now`:
pulls `amount` of the collateral token from the sender into the contract,
adds it to the stored collateral, stamps `lastUpdated`, emits `Deposited`. -/
def depositCollateral (s : LendingState) (sender : Addr) (amount now : Nat) :
    Except LendingError (LendingState × Event) :=
  match s.collateralToken.transferFrom s.self sender s.self amount with
  | .error e => .error e
  | .ok ct =>
      let p := s.positions sender
      .ok ({ s with
              collateralToken := ct,
              positions := setPosition s.positions sender
                { p with collateral := p.collateral + amount, lastUpdated := now } },
            .Deposited sender amount)

/-- Function `borrow(amount)` called by `sender` at time `now`:
requires `collateral * PRICE_RATIO >= amount * COLLATERAL_RATIO / 100` and
loan-token custody at least `amount`; then increases the debt, stamps
`lastUpdated`, sends `amount` of the loan token out, emits `Borrowed`. -/
def borrow (s : LendingState) (sender : Addr) (amount now : Nat) :
    Except LendingError (LendingState × Event) :=
  let collateralValue := (s.positions sender).collateral * PRICE_RATIO
  let requiredCollateral := amount * COLLATERAL_RATIO / 100
  if collateralValue < requiredCollateral then .error .InsufficientCollateral
  else if s.loanToken.balanceOf s.self < amount then .error .InsufficientLiquidity
  else
    let p := s.positions sender
    let s1 := { s with
                positions := setPosition s.positions sender
                  { p with debt := p.debt + amount, lastUpdated := now } }
    match s1.loanToken.transfer s.self sender amount with
    | .error e => .error e
    | .ok lt => .ok ({ s1 with loanToken := lt }, .Borrowed sender amount)

/-- Function `repay()` called by `sender` at time `now`: requires a positive
debt, pulls `debt + interest` of the loan token from the sender, clears the
debt (leaving `collateral` and `lastUpdated` untouched), emits `Repaid`. -/
def repay (s : LendingState) (sender : Addr) (now : Nat) :
    Except LendingError (LendingState × Event) :=
  let debt := (s.positions sender).debt
  if debt = 0 then .error .NoDebtToRepay
  else
    let interest := calculateInterest s sender now
    let totalAmount := debt + interest
    match s.loanToken.transferFrom s.self sender s.self totalAmount with
    | .error e => .error e
    | .ok lt =>
        let p := s.positions sender
        .ok ({ s with
                loanToken := lt,
                positions := setPosition s.positions sender { p with debt := 0 } },
              .Repaid sender totalAmount)

/-- Function `withdrawCollateral()` called by `sender`: requires zero debt,
then a positive stored collateral; sends the full collateral back to the
sender, clears it, emits `Withdrawn`. -/
def withdrawCollateral (s : LendingState) (sender : Addr) :
    Except LendingError (LendingState × Event) :=
  if (s.positions sender).debt ≠ 0 then .error .OutstandingDebt
  else
    let amount := (s.positions sender).collateral
    if amount = 0 then .error .NoCollateral
    else
      match s.collateralToken.transfer s.self sender amount with
      | .error e => .error e
      | .ok ct =>
          let p := s.positions sender
          .ok ({ s with
                  collateralToken := ct,
                  positions := setPosition s.positions sender { p with collateral := 0 } },
                .Withdrawn sender amount)

/-- View `getUserPosition(user)` at time `now`:
`(collateral, debt, calculateInterest(user))`. -/
def getUserPosition (s : LendingState) (user : Addr) (now : Nat) :
    Nat × Nat × Nat :=
  ((s.positions user).collateral, (s.positions user).debt,
    calculateInterest s user now)

/-- A single external call to the contract, with its caller and the block
timestamp at which it executes. -/
inductive Op where
  | depositOp (sender : Addr) (amount now : Nat)
  | borrowOp (sender : Addr) (amount now : Nat)
  | repayOp (sender : Addr) (now : Nat)
  | withdrawOp (sender : Addr)
deriving Repr, DecidableEq

/-- The caller of an operation. -/
def Op.sender : Op → Addr
  | .depositOp a _ _ => a
  | .borrowOp a _ _ => a
  | .repayOp a _ => a
  | .withdrawOp a => a

/-- Dispatch one call. -/
def runOp (s : LendingState) : Op → Except LendingError (LendingState × Event)
  | .depositOp a amt t => depositCollateral s a amt t
  | .borrowOp a amt t => borrow s a amt t
  | .repayOp a t => repay s a t
  | .withdrawOp a => withdrawCollateral s a

/-- Resulting state of one call: a reverted call leaves the state
unchanged (EVM reverts roll every mutation back). -/
def applyOp (s : LendingState) (op : Op) : LendingState :=
  match runOp s op with
  | .error _ => s
  | .ok (s1, _) => s1

/-- Resulting state of a sequence of calls. -/
def runOps (s : LendingState) (ops : List Op) : LendingState :=
  ops.foldl applyOp s

/-- Whether a call succeeded. -/
def isSuccess (r : Except LendingError (LendingState × Event)) : Bool :=
  match r with
  | .ok _ => true
  | .error _ => false

/-! Concrete fixtures used to instantiate the theorems. -/

/-- A token where every account has a large balance and every allowance is
granted (the deployment mints a million units to the deployer). -/
def wToken : Token :=
  { balanceOf := fun _ => 1000000, allowance := fun _ _ => 1000000 }

/-- A deployed protocol (address 0) where every account has collateral 3000,
debt 1000 and lastUpdated 0. -/
def testState : LendingState :=
  { self := 0, collateralToken := wToken, loanToken := wToken,
    positions := fun _ => { collateral := 3000, debt := 1000, lastUpdated := 0 } }

/-- A deployed protocol (address 0) where every position is the all-zero
default (the Empty state of the per-position state machine). -/
def emptyState : LendingState :=
  { self := 0, collateralToken := wToken, loanToken := wToken,
    positions := fun _ => { collateral := 0, debt := 0, lastUpdated := 0 } }

/-! Helper lemmas about the map updates. -/

@[simp] theorem setPosition_same (f : Addr → UserPosition) (k : Addr)
    (v : UserPosition) : setPosition f k v k = v := by
  simp [setPosition]

theorem setPosition_ne (f : Addr → UserPosition) (k : Addr) (v : UserPosition)
    (a : Addr) (h : a ≠ k) : setPosition f k v a = f a := by
  simp [setPosition, h]

@[simp] theorem mapSet_same (f : Addr → Nat) (k : Addr) (v : Nat) :
    mapSet f k v k = v := by
  simp [mapSet]

theorem mapSet_ne (f : Addr → Nat) (k : Addr) (v : Nat) (a : Addr)
    (h : a ≠ k) : mapSet f k v a = f a := by
  simp [mapSet, h]

theorem mapSet_id (f : Addr → Nat) (k : Addr) (a : Addr) :
    mapSet f k (f k) a = f a := by
  by_cases h : a = k <;> simp [mapSet, h]

/-- C1: for every position and timestamps `lastUpdated <= now`, the interest
calculator returns 0 on zero debt, and in general returns
`debt * 5 * ((now - lastUpdated) / 604800) / 100` with integer floor
arithmetic throughout; with debt 1000 it returns 50 after exactly one week,
150 after three weeks, and 0 after six days, 23:59:59. -/
theorem calculateInterest_spec (s : LendingState) (user : Addr) (now : Nat)
    (h : (s.positions user).lastUpdated ≤ now) :
    ((s.positions user).debt = 0 → calculateInterest s user now = 0) ∧
    calculateInterest s user now =
      (s.positions user).debt * 5 *
        ((now - (s.positions user).lastUpdated) / 604800) / 100 ∧
    calculateInterest testState 1 (7 * 24 * 3600) = 50 ∧
    calculateInterest testState 1 (3 * (7 * 24 * 3600)) = 150 ∧
    calculateInterest testState 1 (6 * 86400 + 23 * 3600 + 59 * 60 + 59) = 0 := by
  refine ⟨fun hd => by simp [calculateInterest, hd], ?_, by decide, by decide, by decide⟩
  by_cases hd : (s.positions user).debt = 0
  · simp [calculateInterest, hd]
  · simp only [calculateInterest, hd, if_false, INTEREST_RATE, oneWeek]

/-- Witness for C1 at the concrete fixture. -/
theorem calculateInterest_spec_witness :
    calculateInterest testState 1 (7 * 24 * 3600) = 50 :=
  (calculateInterest_spec testState 1 0 (by decide)).2.2.1

/-- C4 counterexample: from the all-zero Empty position, a borrow of
amount 0 succeeds, so a borrow attempt from Empty does not fail for every
amount. -/
theorem borrow_empty_zero_succeeds :
    (emptyState.positions 1).collateral = 0 ∧
    (emptyState.positions 1).debt = 0 ∧
    isSuccess (borrow emptyState 1 0 5) = true :=
  ⟨rfl, rfl, by decide⟩

/-- C4 (amended): for every positive amount, a borrow attempt from a
position in state Empty (collateral 0 and debt 0) fails, with
`InsufficientCollateral`. -/
theorem borrow_empty_fails (s : LendingState) (sender : Addr) (amount now : Nat)
    (hc : (s.positions sender).collateral = 0)
    (hd : (s.positions sender).debt = 0) (ha : 0 < amount) :
    borrow s sender amount now = .error .InsufficientCollateral := by
  have h100 : 1 * 100 ≤ amount * COLLATERAL_RATIO := by
    have h1 : 1 * COLLATERAL_RATIO ≤ amount * COLLATERAL_RATIO :=
      Nat.mul_le_mul_right _ ha
    calc 1 * 100 ≤ 1 * COLLATERAL_RATIO := by norm_num [ COLLATERAL_RATIO]
      _ ≤ amount * COLLATERAL_RATIO := h1
  have hreq : 1 ≤ amount * COLLATERAL_RATIO / 100 :=
    (Nat.le_div_iff_mul_le (by norm_num)).2 h100
  have hcond : (s.positions sender).collateral * PRICE_RATIO <
      amount * COLLATERAL_RATIO / 100 := by
    rw [hc]
    simpa using hreq
  simp only [borrow]
  rw [if_pos hcond]

/-- Witness for the amended C4 at a concrete Empty position. -/
theorem borrow_empty_fails_witness :
    borrow emptyState 1 1 5 = .error .InsufficientCollateral :=
  borrow_empty_fails emptyState 1 1 5 rfl rfl (by decide)

/-- C10: for every account and state, borrowing amount 0 succeeds: it
leaves collateral, debt, every token balance and every other position
unchanged, emits `Borrowed(sender, 0)`, sets `lastUpdated` to now, and
makes the accrued interest at that instant 0. -/
theorem borrow_zero_spec (s : LendingState) (sender : Addr) (now : Nat) :
    ∃ s1, borrow s sender 0 now = .ok (s1, .Borrowed sender 0) ∧
      (s1.positions sender).collateral = (s.positions sender).collateral ∧
      (s1.positions sender).debt = (s.positions sender).debt ∧
      (s1.positions sender).lastUpdated = now ∧
      (∀ a, s1.loanToken.balanceOf a = s.loanToken.balanceOf a) ∧
      (∀ a, s1.collateralToken.balanceOf a = s.collateralToken.balanceOf a) ∧
      (∀ b, b ≠ sender → s1.positions b = s.positions b) ∧
      calculateInterest s1 sender now = 0 := by
  refine ⟨_, rfl, ?_, ?_, ?_, ?_, ?_, ?_, ?_⟩
  · simp
  · simp
  · simp
  · intro a
    simp only [Nat.sub_zero, Nat.add_zero]
    rw [mapSet_id, mapSet_id]
  · intro a
    rfl
  · intro b hb
    simp [setPosition, hb]
  · by_cases hd : (s.positions sender).debt + 0 = 0 <;>
      simp [calculateInterest, hd]

/-- C2: for a user account, borrow succeeds exactly when
`collateral * 1 >= amount * 150 / 100` (floor division, boundary included)
and the loan-token custody of the contract is at least `amount`; a failing
collateral check raises `InsufficientCollateral`, a failing liquidity check
alone raises `InsufficientLiquidity`; on success the debt grows by `amount`,
`lastUpdated` becomes `now`, `amount` of the loan asset moves from the
contract to the account, and `Borrowed(account, amount)` is emitted. -/
theorem borrow_spec (s : LendingState) (sender : Addr) (amount now : Nat)
    (hs : sender ≠ s.self) :
    (isSuccess (borrow s sender amount now) = true ↔
      amount * 150 / 100 ≤ (s.positions sender).collateral * 1 ∧
      amount ≤ s.loanToken.balanceOf s.self) ∧
    ((s.positions sender).collateral * 1 < amount * 150 / 100 →
      borrow s sender amount now = .error .InsufficientCollateral) ∧
    (amount * 150 / 100 ≤ (s.positions sender).collateral * 1 →
      s.loanToken.balanceOf s.self < amount →
      borrow s sender amount now = .error .InsufficientLiquidity) ∧
    (∀ s1 e, borrow s sender amount now = .ok (s1, e) →
      e = .Borrowed sender amount ∧
      (s1.positions sender).debt = (s.positions sender).debt + amount ∧
      (s1.positions sender).collateral = (s.positions sender).collateral ∧
      (s1.positions sender).lastUpdated = now ∧
      s1.loanToken.balanceOf sender = s.loanToken.balanceOf sender + amount ∧
      s1.loanToken.balanceOf s.self = s.loanToken.balanceOf s.self - amount) := by
  by_cases h1 : (s.positions sender).collateral * 1 < amount * 150 / 100
  case pos =>
    have h1c : (s.positions sender).collateral * PRICE_RATIO <
        amount * COLLATERAL_RATIO / 100 := h1
    have hb : borrow s sender amount now = .error .InsufficientCollateral := by
      simp only [borrow]
      rw [if_pos h1c]
    refine ⟨?_, fun _ => hb, fun hc _ => absurd h1 (Nat.not_lt.2 hc), ?_⟩
    · rw [hb]
      simp only [isSuccess, Bool.false_eq_true, false_iff, not_and]
      intro hc
      exact absurd h1 (Nat.not_lt.2 hc)
    · intro s1 e he
      rw [hb] at he
      exact absurd he (by simp)
  case neg =>
    have h1c : ¬ (s.positions sender).collateral * PRICE_RATIO <
        amount * COLLATERAL_RATIO / 100 := h1
    by_cases h2 : s.loanToken.balanceOf s.self < amount
    case pos =>
      have hb : borrow s sender amount now = .error .InsufficientLiquidity := by
        simp only [borrow]
        rw [if_neg h1c, if_pos h2]
      refine ⟨?_, fun hcl => absurd hcl h1, fun _ _ => hb, ?_⟩
      · rw [hb]
        simp only [isSuccess, Bool.false_eq_true, false_iff, not_and]
        intro _ hle
        exact absurd h2 (Nat.not_lt.2 hle)
      · intro s1 e he
        rw [hb] at he
        exact absurd he (by simp)
    case neg =>
      refine ⟨?_, fun hcl => absurd hcl h1, fun _ hlt => absurd hlt h2, ?_⟩
      · simp only [borrow, Token.transfer, if_neg h1c, if_neg h2, isSuccess]
        exact iff_of_true trivial ⟨Nat.not_lt.1 h1, Nat.not_lt.1 h2⟩
      · intro s1 e he
        simp only [borrow, Token.transfer, if_neg h1c, if_neg h2,
          Except.ok.injEq, Prod.mk.injEq] at he
        obtain ⟨h3, h4⟩ := he
        subst h3
        subst h4
        refine ⟨rfl, by simp, by simp, by simp, ?_, ?_⟩
        · simp [mapSet, hs]
        · simp [mapSet, Ne.symm hs]

/-- Witness for C2 at a concrete account with ample collateral. -/
theorem borrow_spec_witness :
    isSuccess (borrow testState 1 100 7) = true :=
  ((borrow_spec testState 1 100 7 (by decide)).1).2 ⟨by decide, by decide⟩

/-- C3: for a user account, repay fails with `NoDebtToRepay` exactly when
the debt is zero; a successful repay moves exactly
`debt + calculateInterest` of the loan asset from the account into the
contract, clears the debt, emits `Repaid(account, debt + interest)`, leaves
collateral and `lastUpdated` unchanged, and an immediate `getUserPosition`
reports debt 0 and interest 0; with a positive debt and sufficient
allowance and balance the call succeeds. -/
theorem repay_spec (s : LendingState) (sender : Addr) (now : Nat)
    (hs : sender ≠ s.self) :
    (repay s sender now = .error .NoDebtToRepay ↔
      (s.positions sender).debt = 0) ∧
    (∀ s1 e, repay s sender now = .ok (s1, e) →
      e = .Repaid sender
        ((s.positions sender).debt + calculateInterest s sender now) ∧
      (s1.positions sender).debt = 0 ∧
      (s1.positions sender).collateral = (s.positions sender).collateral ∧
      (s1.positions sender).lastUpdated = (s.positions sender).lastUpdated ∧
      s1.loanToken.balanceOf sender =
        s.loanToken.balanceOf sender -
          ((s.positions sender).debt + calculateInterest s sender now) ∧
      s1.loanToken.balanceOf s.self =
        s.loanToken.balanceOf s.self +
          ((s.positions sender).debt + calculateInterest s sender now) ∧
      getUserPosition s1 sender now = ((s.positions sender).collateral, 0, 0)) ∧
    (0 < (s.positions sender).debt →
      (s.positions sender).debt + calculateInterest s sender now ≤
        s.loanToken.allowance sender s.self →
      (s.positions sender).debt + calculateInterest s sender now ≤
        s.loanToken.balanceOf sender →
      isSuccess (repay s sender now) = true) := by
  by_cases hd : (s.positions sender).debt = 0
  case pos =>
    have hb : repay s sender now = .error .NoDebtToRepay := by
      simp only [repay]
      rw [if_pos hd]
    refine ⟨iff_of_true hb hd, ?_, fun hlt _ _ => absurd hd (by omega)⟩
    intro s1 e he
    rw [hb] at he
    exact absurd he (by simp)
  case neg =>
    by_cases hal : s.loanToken.allowance sender s.self <
        (s.positions sender).debt + calculateInterest s sender now
    case pos =>
      have hb : repay s sender now = .error .InsufficientAllowance := by
        simp only [repay, Token.transferFrom, if_neg hd, if_pos hal]
      refine ⟨iff_of_false (by rw [hb]; simp) hd, ?_, ?_⟩
      · intro s1 e he
        rw [hb] at he
        exact absurd he (by simp)
      · intro _ halle _
        exact absurd hal (Nat.not_lt.2 halle)
    case neg =>
      by_cases hbal : s.loanToken.balanceOf sender <
          (s.positions sender).debt + calculateInterest s sender now
      case pos =>
        have hb : repay s sender now = .error .InsufficientBalance := by
          simp only [repay, Token.transferFrom, Token.transfer,
            if_neg hd, if_neg hal, if_pos hbal]
        refine ⟨iff_of_false (by rw [hb]; simp) hd, ?_, ?_⟩
        · intro s1 e he
          rw [hb] at he
          exact absurd he (by simp)
        · intro _ _ hballe
          exact absurd hbal (Nat.not_lt.2 hballe)
      case neg =>
        refine ⟨iff_of_false ?_ hd, ?_, ?_⟩
        · simp only [repay, Token.transferFrom, Token.transfer,
            if_neg hd, if_neg hal, if_neg hbal]
          simp
        · intro s1 e he
          simp only [repay, Token.transferFrom, Token.transfer,
            if_neg hd, if_neg hal, if_neg hbal,
            Except.ok.injEq, Prod.mk.injEq] at he
          obtain ⟨h3, h4⟩ := he
          subst h3
          subst h4
          refine ⟨rfl, by simp, by simp, by simp, ?_, ?_, ?_⟩
          · simp [mapSet, hs]
          · simp [mapSet, Ne.symm hs]
          · simp [getUserPosition, calculateInterest]
        · intro _ _ _
          simp only [repay, Token.transferFrom, Token.transfer,
            if_neg hd, if_neg hal, if_neg hbal, isSuccess]

/-- Witness for C3: repaying a 1000 debt one week old (interest 50). -/
theorem repay_spec_witness :
    isSuccess (repay testState 1 604800) = true :=
  (repay_spec testState 1 604800 (by decide)).2.2 (by decide) (by decide)
    (by decide)

/-- C5: withdrawCollateral fails with `OutstandingDebt` whenever the debt
is non-zero (this check comes first), then with `NoCollateral` when the
collateral is zero; otherwise it moves the full stored collateral to the
account, clears the stored collateral, emits `Withdrawn(account, amount)`,
and leaves debt and `lastUpdated` unchanged. -/
theorem withdrawCollateral_spec (s : LendingState) (sender : Addr)
    (hs : sender ≠ s.self) :
    ((s.positions sender).debt ≠ 0 →
      withdrawCollateral s sender = .error .OutstandingDebt) ∧
    ((s.positions sender).debt = 0 → (s.positions sender).collateral = 0 →
      withdrawCollateral s sender = .error .NoCollateral) ∧
    (∀ s1 e, withdrawCollateral s sender = .ok (s1, e) →
      e = .Withdrawn sender (s.positions sender).collateral ∧
      (s1.positions sender).collateral = 0 ∧
      (s1.positions sender).debt = (s.positions sender).debt ∧
      (s1.positions sender).lastUpdated = (s.positions sender).lastUpdated ∧
      s1.collateralToken.balanceOf sender =
        s.collateralToken.balanceOf sender + (s.positions sender).collateral ∧
      s1.collateralToken.balanceOf s.self =
        s.collateralToken.balanceOf s.self - (s.positions sender).collateral) ∧
    ((s.positions sender).debt = 0 → (s.positions sender).collateral ≠ 0 →
      (s.positions sender).collateral ≤ s.collateralToken.balanceOf s.self →
      isSuccess (withdrawCollateral s sender) = true) := by
  by_cases hd : (s.positions sender).debt = 0
  case neg =>
    have hb : withdrawCollateral s sender = .error .OutstandingDebt := by
      simp only [withdrawCollateral]
      rw [if_pos hd]
    refine ⟨fun _ => hb, fun h0 _ => absurd h0 hd, ?_, fun h0 _ _ => absurd h0 hd⟩
    intro s1 e he
    rw [hb] at he
    exact absurd he (by simp)
  case pos =>
    have hnd : ¬ (s.positions sender).debt ≠ 0 := fun h => h hd
    by_cases hc : (s.positions sender).collateral = 0
    case pos =>
      have hb : withdrawCollateral s sender = .error .NoCollateral := by
        simp only [withdrawCollateral]
        rw [if_neg hnd, if_pos hc]
      refine ⟨fun hne => absurd hd hne, fun _ _ => hb, ?_, fun _ hcne _ => absurd hc hcne⟩
      intro s1 e he
      rw [hb] at he
      exact absurd he (by simp)
    case neg =>
      by_cases hbal : s.collateralToken.balanceOf s.self <
          (s.positions sender).collateral
      case pos =>
        have hb : withdrawCollateral s sender = .error .InsufficientBalance := by
          simp only [withdrawCollateral, Token.transfer]
          rw [if_neg hnd, if_neg hc, if_pos hbal]
        refine ⟨fun hne => absurd hd hne, fun _ h0 => absurd h0 hc, ?_,
          fun _ _ hle => absurd hbal (Nat.not_lt.2 hle)⟩
        intro s1 e he
        rw [hb] at he
        exact absurd he (by simp)
      case neg =>
        refine ⟨fun hne => absurd hd hne, fun _ h0 => absurd h0 hc, ?_, ?_⟩
        · intro s1 e he
          simp only [withdrawCollateral, Token.transfer,
            if_neg hnd, if_neg hc, if_neg hbal,
            Except.ok.injEq, Prod.mk.injEq] at he
          obtain ⟨h3, h4⟩ := he
          subst h3
          subst h4
          refine ⟨rfl, by simp, by simp, by simp, ?_, ?_⟩
          · simp [mapSet, hs]
          · simp [mapSet, Ne.symm hs]
        · intro _ _ _
          simp only [withdrawCollateral, Token.transfer,
            if_neg hnd, if_neg hc, if_neg hbal, isSuccess]

/-- Witness for C5: a debt-free account withdrawing its 3000 collateral. -/
theorem withdrawCollateral_spec_witness :
    withdrawCollateral testState 1 = .error .OutstandingDebt :=
  (withdrawCollateral_spec testState 1 (by decide)).1 (by decide)

/-- C6: a successful deposit on an account with a positive debt and
non-zero accrued interest stamps `lastUpdated = now`, so the accrued
interest observable at the same instant becomes 0. -/
theorem deposit_resets_interest (s : LendingState) (sender : Addr)
    (amount now : Nat) (hd : 0 < (s.positions sender).debt)
    (hi : calculateInterest s sender now ≠ 0) :
    ∀ s1 e, depositCollateral s sender amount now = .ok (s1, e) →
      (s1.positions sender).lastUpdated = now ∧
      calculateInterest s1 sender now = 0 := by
  intro s1 e he
  unfold depositCollateral at he
  cases hc : s.collateralToken.transferFrom s.self sender s.self amount with
  | error e0 =>
      rw [hc] at he
      exact absurd he (by simp)
  | ok ct =>
      rw [hc] at he
      simp only [Except.ok.injEq, Prod.mk.injEq] at he
      obtain ⟨h3, h4⟩ := he
      subst h3
      have hd0 : (s.positions sender).debt ≠ 0 := Nat.pos_iff_ne_zero.mp hd
      refine ⟨by simp, ?_⟩
      simp [calculateInterest, hd0]

/-- Witness for C6: depositing 20 onto a week-old 1000 debt (interest 50)
zeroes the observable interest. -/
theorem deposit_resets_interest_witness :
    calculateInterest (applyOp testState (.depositOp 1 20 604800)) 1 604800
      = 0 := by
  have h := deposit_resets_interest testState 1 20 604800 (by decide) (by decide)
    (applyOp testState (.depositOp 1 20 604800)) (.Deposited 1 20) rfl
  exact h.2

/-- A successful deposit adds exactly its amount to the stored collateral. -/
theorem depositCollateral_ok_collateral (s : LendingState) (a : Addr)
    (amount now : Nat) (s1 : LendingState) (e : Event)
    (h : depositCollateral s a amount now = .ok (s1, e)) :
    (s1.positions a).collateral = (s.positions a).collateral + amount := by
  unfold depositCollateral at h
  cases hc : s.collateralToken.transferFrom s.self a s.self amount with
  | error e0 =>
      rw [hc] at h
      exact absurd h (by simp)
  | ok ct =>
      rw [hc] at h
      simp only [Except.ok.injEq, Prod.mk.injEq] at h
      obtain ⟨h3, h4⟩ := h
      subst h3
      simp

/-- C8: a successful deposit of X followed by a successful deposit of Y
on the same account yields the same final stored collateral as a single
successful deposit of X + Y. -/
theorem deposit_additive (s : LendingState) (a : Addr)
    (X Y n1 n2 n3 : Nat) (s1 s2 s3 : LendingState) (e1 e2 e3 : Event)
    (h1 : depositCollateral s a X n1 = .ok (s1, e1))
    (h2 : depositCollateral s1 a Y n2 = .ok (s2, e2))
    (h3 : depositCollateral s a (X + Y) n3 = .ok (s3, e3)) :
    (s2.positions a).collateral = (s3.positions a).collateral := by
  have g1 := depositCollateral_ok_collateral s a X n1 s1 e1 h1
  have g2 := depositCollateral_ok_collateral s1 a Y n2 s2 e2 h2
  have g3 := depositCollateral_ok_collateral s a (X + Y) n3 s3 e3 h3
  omega

/-- Witness for C8 with concrete deposits of 10 and 20 against 30. -/
theorem deposit_additive_witness :
    ((applyOp (applyOp testState (.depositOp 1 10 100))
        (.depositOp 1 20 200)).positions 1).collateral =
      ((applyOp testState (.depositOp 1 30 300)).positions 1).collateral :=
  deposit_additive testState 1 10 20 100 200 300
    (applyOp testState (.depositOp 1 10 100))
    (applyOp (applyOp testState (.depositOp 1 10 100)) (.depositOp 1 20 200))
    (applyOp testState (.depositOp 1 30 300))
    (.Deposited 1 10) (.Deposited 1 20) (.Deposited 1 30) rfl rfl rfl

/-- A successful call only rewrites the position of its own caller. -/
theorem runOp_ok_positions_frame (s : LendingState) (op : Op)
    (s1 : LendingState) (e : Event) (h : runOp s op = .ok (s1, e))
    (b : Addr) (hb : Op.sender op ≠ b) : s1.positions b = s.positions b := by
  cases op with
  | depositOp a amt t =>
      simp only [Op.sender] at hb
      simp only [runOp, depositCollateral] at h
      split at h
      · exact absurd h (by simp)
      · simp only [Except.ok.injEq, Prod.mk.injEq] at h
        obtain ⟨h3, h4⟩ := h
        subst h3
        simp [setPosition, Ne.symm hb]
  | borrowOp a amt t =>
      simp only [Op.sender] at hb
      simp only [runOp, borrow] at h
      split at h
      · exact absurd h (by simp)
      · split at h
        · exact absurd h (by simp)
        · split at h
          · exact absurd h (by simp)
          · simp only [Except.ok.injEq, Prod.mk.injEq] at h
            obtain ⟨h3, h4⟩ := h
            subst h3
            simp [setPosition, Ne.symm hb]
  | repayOp a t =>
      simp only [Op.sender] at hb
      simp only [runOp, repay] at h
      split at h
      · exact absurd h (by simp)
      · split at h
        · exact absurd h (by simp)
        · simp only [Except.ok.injEq, Prod.mk.injEq] at h
          obtain ⟨h3, h4⟩ := h
          subst h3
          simp [setPosition, Ne.symm hb]
  | withdrawOp a =>
      simp only [Op.sender] at hb
      simp only [runOp, withdrawCollateral] at h
      split at h
      · exact absurd h (by simp)
      · split at h
        · exact absurd h (by simp)
        · split at h
          · exact absurd h (by simp)
          · simp only [Except.ok.injEq, Prod.mk.injEq] at h
            obtain ⟨h3, h4⟩ := h
            subst h3
            simp [setPosition, Ne.symm hb]

/-- A call (also a reverted one) only rewrites its caller's position. -/
theorem applyOp_positions_frame (s : LendingState) (op : Op) (b : Addr)
    (hb : Op.sender op ≠ b) : (applyOp s op).positions b = s.positions b := by
  unfold applyOp
  cases hr : runOp s op with
  | error e => rfl
  | ok p =>
      obtain ⟨s1, e⟩ := p
      exact runOp_ok_positions_frame s op s1 e hr b hb

/-- C9: a sequence of calls none of which is made by account b leaves the
stored position of b (collateral, debt and lastUpdated) unchanged. -/
theorem ops_frame (s : LendingState) (ops : List Op) (b : Addr) :
    (∀ op ∈ ops, Op.sender op ≠ b) →
    (runOps s ops).positions b = s.positions b := by
  induction ops generalizing s with
  | nil =>
      intro _
      rfl
  | cons op rest ih =>
      intro hops
      have h1 : Op.sender op ≠ b := hops op (List.mem_cons_self op rest)
      have h2 : ∀ o ∈ rest, Op.sender o ≠ b :=
        fun o ho => hops o (List.mem_cons_of_mem op ho)
      have hstep : runOps s (op :: rest) = runOps (applyOp s op) rest := rfl
      rw [hstep, ih (applyOp s op) h2, applyOp_positions_frame s op b h1]

/-- Witness for C9: account 1 operating does not touch account 2. -/
theorem ops_frame_witness :
    (runOps testState
        [.depositOp 1 10 100, .borrowOp 1 5 100, .repayOp 1 100,
          .withdrawOp 1]).positions 2 = testState.positions 2 :=
  ops_frame testState
    [.depositOp 1 10 100, .borrowOp 1 5 100, .repayOp 1 100, .withdrawOp 1]
    2 (by decide)

/-- Each call either increases a position field or clears it to zero. -/
theorem applyOp_fields (s : LendingState) (op : Op) (a : Addr) :
    (((applyOp s op).positions a).collateral = 0 ∨
      (s.positions a).collateral ≤ ((applyOp s op).positions a).collateral) ∧
    (((applyOp s op).positions a).debt = 0 ∨
      (s.positions a).debt ≤ ((applyOp s op).positions a).debt) := by
  by_cases hsend : Op.sender op = a
  case neg =>
    rw [applyOp_positions_frame s op a hsend]
    exact ⟨Or.inr le_rfl, Or.inr le_rfl⟩
  case pos =>
    cases op with
    | depositOp a0 amt t =>
        simp only [Op.sender] at hsend
        subst hsend
        cases hc : s.collateralToken.transferFrom s.self a0 s.self amt with
        | error e0 =>
            refine ⟨Or.inr ?_, Or.inr ?_⟩ <;>
              simp [applyOp, runOp, depositCollateral, hc]
        | ok ct =>
            refine ⟨Or.inr ?_, Or.inr ?_⟩ <;>
              simp [applyOp, runOp, depositCollateral, hc]
    | borrowOp a0 amt t =>
        simp only [Op.sender] at hsend
        subst hsend
        by_cases h1 : (s.positions a0).collateral * PRICE_RATIO <
            amt * COLLATERAL_RATIO / 100
        · refine ⟨Or.inr ?_, Or.inr ?_⟩ <;>
            simp [applyOp, runOp, borrow, if_pos h1]
        · by_cases h2 : s.loanToken.balanceOf s.self < amt
          · refine ⟨Or.inr ?_, Or.inr ?_⟩ <;>
              simp [applyOp, runOp, borrow, if_neg h1, if_pos h2]
          · refine ⟨Or.inr ?_, Or.inr ?_⟩ <;>
              simp [applyOp, runOp, borrow, Token.transfer, if_neg h1, if_neg h2]
    | repayOp a0 t =>
        simp only [Op.sender] at hsend
        subst hsend
        by_cases h1 : (s.positions a0).debt = 0
        · refine ⟨Or.inr ?_, Or.inr ?_⟩ <;>
            simp [applyOp, runOp, repay, if_pos h1]
        · cases hc : s.loanToken.transferFrom s.self a0 s.self
              ((s.positions a0).debt + calculateInterest s a0 t) with
          | error e0 =>
              refine ⟨Or.inr ?_, Or.inr ?_⟩ <;>
                simp [applyOp, runOp, repay, if_neg h1, hc]
          | ok lt =>
              refine ⟨Or.inr ?_, Or.inl ?_⟩ <;>
                simp [applyOp, runOp, repay, if_neg h1, hc]
    | withdrawOp a0 =>
        simp only [Op.sender] at hsend
        subst hsend
        by_cases h1 : (s.positions a0).debt ≠ 0
        · refine ⟨Or.inr ?_, Or.inr ?_⟩ <;>
            simp [applyOp, runOp, withdrawCollateral, if_pos h1]
        · by_cases h2 : (s.positions a0).collateral = 0
          · refine ⟨Or.inr ?_, Or.inr ?_⟩ <;>
              simp [applyOp, runOp, withdrawCollateral, if_neg h1, if_pos h2]
          · cases hc : s.collateralToken.transfer s.self a0
                (s.positions a0).collateral with
            | error e0 =>
                refine ⟨Or.inr ?_, Or.inr ?_⟩ <;>
                  simp [applyOp, runOp, withdrawCollateral, if_neg h1, if_neg h2, hc]
            | ok ct =>
                refine ⟨Or.inl ?_, Or.inr ?_⟩ <;>
                  simp [applyOp, runOp, withdrawCollateral, if_neg h1, if_neg h2, hc]

/-- C7: after any single call from any state, and after any sequence of
calls, every position keeps collateral and debt non-negative; moreover a
call never decrements a field below zero: it either clears the field to
zero or leaves it at least as large as before. -/
theorem position_invariants (s : LendingState) (op : Op) (ops : List Op)
    (a : Addr) :
    0 ≤ ((applyOp s op).positions a).collateral ∧
    0 ≤ ((applyOp s op).positions a).debt ∧
    (((applyOp s op).positions a).collateral = 0 ∨
      (s.positions a).collateral ≤ ((applyOp s op).positions a).collateral) ∧
    (((applyOp s op).positions a).debt = 0 ∨
      (s.positions a).debt ≤ ((applyOp s op).positions a).debt) ∧
    0 ≤ ((runOps s ops).positions a).collateral ∧
    0 ≤ ((runOps s ops).positions a).debt :=
  ⟨Nat.zero_le _, Nat.zero_le _, (applyOp_fields s op a).1,
    (applyOp_fields s op a).2, Nat.zero_le _, Nat.zero_le _⟩

end DefiLoan
